import Mathlib

/-!
Verification of the kandil-code FastAPI scaffold templates.

The repository ships two nearly identical template files:
  * variant 1: src/kandil_code/templates/python/fastapi/app/main.py
  * variant 2: src/templates/python/fastapi/app/main.py
Each registers a handful of route handlers on a FastAPI application.
We embed the handlers as pure functions over a small JSON value type,
and model the framework-level request plumbing (path-parameter
coercion, body validation) from the specification, since that code
lives in the external framework, not in this repository.
-/

namespace KandilCode

/-- JSON values, the bodies exchanged over the scaffold's HTTP surface. -/
inductive Json where
  | null : Json
  | bool : Bool → Json
  | int : Int → Json
  | str : String → Json
  | obj : List (String × Json) → Json
  deriving Repr

/-- Look up a field of a JSON object (none for non-objects or absent keys). -/
def Json.getField : Json → String → Option Json
  | .obj fields, k => fields.lookup k
  | _, _ => none

/-- Serialization of an optional Python string: None renders as JSON null. -/
def Json.ofOptStr : Option String → Json
  | none => .null
  | some s => .str s

/-- A framework-level outcome of a request: either a JSON response body
produced by a handler, or rejection by the framework's automatic request
validation (HTTP 422), in which case no handler ran. -/
inductive Response where
  | ok : Json → Response
  | validationError : Response
  deriving Repr

/-- Decimal value of a list of digit characters. -/
def digitsToNat (l : List Char) : Nat :=
  l.foldl (fun acc c => 10 * acc + (c.toNat - 48)) 0

/-- Parse a nonempty all-digit character list as a natural number. -/
def parseDigits (l : List Char) : Option Int :=
  if l ≠ [] ∧ l.all Char.isDigit then some (digitsToNat l : Int) else none

/-- Modelled from the spec: the external framework coerces the `item_id`
path segment to an integer ("path integer item_id"; "type coercion failure
on item_id"), accepting exactly optionally signed decimal numerals. -/
def parsePathInt (s : String) : Option Int :=
  match s.toList with
  | List.cons c rest =>
      if c = Char.ofNat 45 then (parseDigits rest).map (fun n => -n)
      else if c = Char.ofNat 43 then parseDigits rest
      else parseDigits (List.cons c rest)
  | List.nil => none

namespace V1

/-- Item model of variant 1 (src/kandil_code/.../app/main.py):
`name: str` required, `description: str = None` optional. -/
structure Item where
  name : String
  description : Option String := none
  deriving Repr

/-- Response serialization of an Item: absent description renders as null. -/
def Item.toJson (it : Item) : Json :=
  .obj [("name", .str it.name), ("description", Json.ofOptStr it.description)]

/-- Modelled from the spec: the framework validates the POST /items/ body
against Item before the handler runs — "a record with a required textual
name and an optional textual description (defaulting to absent/null)";
malformed bodies, a missing name, or a type-mismatched field are rejected
("All error handling ... is performed by the external framework's automatic
request validation"). An explicit null description counts as absent. -/
def Item.parse (body : Json) : Option Item :=
  match body with
  | .obj _ =>
    match body.getField "name" with
    | some (.str n) =>
      match body.getField "description" with
      | none => some { name := n, description := none }
      | some .null => some { name := n, description := none }
      | some (.str d) => some { name := n, description := some d }
      | some _ => none
    | _ => none
  | _ => none

/-- Handler for GET / in variant 1: `return {"Hello": "World"}`. -/
def read_root : Json :=
  .obj [("Hello", .str "World")]

/-- Handler for GET /items/{item_id} in variant 1:
`return {"item_id": item_id, "q": q}`. -/
def read_item (item_id : Int) (q : Option String) : Json :=
  .obj [("item_id", .int item_id), ("q", Json.ofOptStr q)]

/-- Handler for POST /items/ in variant 1: `return item`. -/
def create_item (item : Item) : Item :=
  item

/-- GET /items/{item_id} at the framework level in variant 1: the path
segment is coerced to an integer before the handler is invoked. -/
def get_items (seg : String) (q : Option String) : Response :=
  match parsePathInt seg with
  | none => .validationError
  | some i => .ok (read_item i q)

/-- POST /items/ at the framework level in variant 1: the body is
validated as an Item before the handler is invoked. -/
def post_items (body : Json) : Response :=
  match Item.parse body with
  | none => .validationError
  | some item => .ok (create_item item).toJson

/-- Routes registered by variant 1, in source order. -/
def routes : List String :=
  ["/", "/items/{item_id}", "/items/"]

end V1

namespace V2

/-- Item model of variant 2 (src/templates/.../app/main.py): identical
field declarations to variant 1's. -/
structure Item where
  name : String
  description : Option String := none
  deriving Repr

/-- Response serialization of a variant-2 Item. -/
def Item.toJson (it : Item) : Json :=
  .obj [("name", .str it.name), ("description", Json.ofOptStr it.description)]

/-- Modelled from the spec, as for variant 1: framework validation of the
POST /items/ body against variant 2's Item model. -/
def Item.parse (body : Json) : Option Item :=
  match body with
  | .obj _ =>
    match body.getField "name" with
    | some (.str n) =>
      match body.getField "description" with
      | none => some { name := n, description := none }
      | some .null => some { name := n, description := none }
      | some (.str d) => some { name := n, description := some d }
      | some _ => none
    | _ => none
  | _ => none

/-- Handler for GET / in variant 2: `return {"Hello": "World"}`. -/
def read_root : Json :=
  .obj [("Hello", .str "World")]

/-- Handler for GET /items/{item_id} in variant 2:
`return {"item_id": item_id, "q": q}`. -/
def read_item (item_id : Int) (q : Option String) : Json :=
  .obj [("item_id", .int item_id), ("q", Json.ofOptStr q)]

/-- Handler for POST /items/ in variant 2: `return item`. -/
def create_item (item : Item) : Item :=
  item

/-- GET /items/{item_id} at the framework level in variant 2. -/
def get_items (seg : String) (q : Option String) : Response :=
  match parsePathInt seg with
  | none => .validationError
  | some i => .ok (read_item i q)

/-- POST /items/ at the framework level in variant 2. -/
def post_items (body : Json) : Response :=
  match Item.parse body with
  | none => .validationError
  | some item => .ok (create_item item).toJson

/-- Handler for GET /healthz in variant 2: `return {"status": "ok"}`. -/
def healthz : Json :=
  .obj [("status", .str "ok")]

/-- Python's int(): truncation toward zero (floor for nonnegative
arguments, ceiling for negative ones). -/
def pyInt (q : ℚ) : Int :=
  if 0 ≤ q then ⌊q⌋ else ⌈q⌉

/-- Response of the GET /readyz handler. -/
structure ReadyzResp where
  ready : Bool
  elapsed_ms : Int
  deriving Repr

/-- Handler for GET /readyz in variant 2. The handler body calls
time.time() twice in immediate succession: `start = time.time()` and then
`elapsed_ms = int((time.time() - start) * 1000)`; `t1` and `t2` are the
values returned by those two consecutive clock reads (seconds). -/
def readyz (t1 t2 : ℚ) : ReadyzResp :=
  let start := t1
  let elapsed_ms := pyInt ((t2 - start) * 1000)
  { ready := true, elapsed_ms := elapsed_ms }

/-- Routes registered by variant 2, in source order. -/
def routes : List String :=
  ["/", "/items/{item_id}", "/items/", "/healthz", "/readyz"]

end V2

/-- A request to one of the deterministic endpoints of the scaffold
(GET /, GET /items/{item_id}, POST /items/, GET /healthz). -/
inductive Request where
  | root : Request
  | items : String → Option String → Request
  | createItem : Json → Request
  | healthz : Request

/-- Module-level server state of the scaffold: the source files bind no
mutable module state (app, Item and the handlers are never reassigned and
hold no mutable fields the handlers touch), so the state carries no data. -/
structure ServerState where
  deriving Repr

/-- Dispatch of a single request to its variant-2 handler. -/
def handle : Request → Response
  | .root => .ok V2.read_root
  | .items seg q => V2.get_items seg q
  | .createItem body => V2.post_items body
  | .healthz => .ok V2.healthz

/-- Processing of one request: the response, and the server state after
the call. -/
def step (s : ServerState) (r : Request) : Response × ServerState :=
  (handle r, s)

/-- Sequential processing of a list of requests, threading the server
state through the calls. -/
def run (s : ServerState) : List Request → List Response
  | [] => []
  | r :: rs =>
    let p := step s r
    p.1 :: run p.2 rs

/-- The response at position i of a run is the dispatch of the request at
position i, independent of the server state and of the other requests. -/
theorem run_get (s : ServerState) (rs : List Request) (i : Nat) :
    (run s rs).get? i = (rs.get? i).map handle := by
  induction rs generalizing s i with
  | nil => rfl
  | cons r rs ih =>
    cases i with
    | zero => rfl
    | succ n => simpa [run, step] using ih s n

/-- Element at the length of the prefix in a split list. -/
theorem get_append_cons {α : Type} (pre : List α) (x : α) (post : List α) :
    (pre ++ x :: post).get? pre.length = some x := by
  induction pre with
  | nil => rfl
  | cons y ys ih => simpa using ih

/-- Variant 1's and variant 2's body validation agree up to
serialization of the parsed Item. -/
theorem parse_toJson_agree (body : Json) :
    (V1.Item.parse body).map V1.Item.toJson =
      (V2.Item.parse body).map V2.Item.toJson := by
  unfold V1.Item.parse V2.Item.parse
  cases body <;> try rfl
  rename_i fields
  rcases hn : (Json.obj fields).getField "name" with _ | jn <;> simp only [hn]
  · rfl
  · cases jn <;> try rfl
    rcases hd : (Json.obj fields).getField "description" with _ | jd <;> simp only [hd]
    · rfl
    · cases jd <;> rfl

/-- Variant 1's and variant 2's POST /items/ endpoints agree on every
body. -/
theorem post_items_agree (body : Json) :
    V1.post_items body = V2.post_items body := by
  have h := parse_toJson_agree body
  unfold V1.post_items V2.post_items
  rcases h1 : V1.Item.parse body with _ | it1 <;>
    rcases h2 : V2.Item.parse body with _ | it2 <;>
      rw [h1, h2] at h <;> simp_all [V1.create_item, V2.create_item]

/-- C1: every call to the variant-2 GET /readyz handler has ready = true,
has elapsed_ms = 0 whenever the two immediately consecutive clock reads
inside the handler body lie less than one millisecond apart, and produces
a response invariant under delaying both reads by any amount d — in
particular by the request's actual processing time — since the handler
only measures the gap between its own two consecutive reads. -/
theorem readyz_always_ready_elapsed_zero (t1 t2 : ℚ) :
    (V2.readyz t1 t2).ready = true ∧
    (t1 ≤ t2 → t2 - t1 < 1 / 1000 → (V2.readyz t1 t2).elapsed_ms = 0) ∧
    (∀ d : ℚ, V2.readyz (t1 + d) (t2 + d) = V2.readyz t1 t2) := by
  refine ⟨rfl, ?_, ?_⟩
  · intro h1 h2
    have h0 : (0 : ℚ) ≤ (t2 - t1) * 1000 := by nlinarith
    have h1' : (t2 - t1) * 1000 < 1 := by nlinarith
    show V2.pyInt ((t2 - t1) * 1000) = 0
    rw [V2.pyInt, if_pos h0]
    exact Int.floor_eq_zero_iff.mpr ⟨h0, h1'⟩
  · intro d
    have h : t2 + d - (t1 + d) = t2 - t1 := by ring
    simp only [V2.readyz, h]

/-- Witness for C1 at clock reads 0 and 1/2000 seconds and delay 5. -/
theorem readyz_always_ready_elapsed_zero_witness :
    (V2.readyz 0 (1 / 2000)).ready = true ∧
    (V2.readyz 0 (1 / 2000)).elapsed_ms = 0 ∧
    V2.readyz (0 + 5) (1 / 2000 + 5) = V2.readyz 0 (1 / 2000) := by
  obtain ⟨h1, h2, h3⟩ := readyz_always_ready_elapsed_zero 0 (1 / 2000)
  exact ⟨h1, h2 (by norm_num) (by norm_num), h3 5⟩

/-- C2: GET /items/{item_id} echoes its inputs in both variants: the
response maps item_id to the path integer and q to the query string,
with q null exactly when the query parameter was absent; in particular
/items/42 yields q null without a query and q "foo" with q=foo. -/
theorem read_item_echoes (i : Int) (q : Option String) :
    V1.read_item i q = Json.obj [("item_id", .int i), ("q", Json.ofOptStr q)] ∧
    V2.read_item i q = Json.obj [("item_id", .int i), ("q", Json.ofOptStr q)] ∧
    ((V1.read_item i q).getField "q" = some Json.null ↔ q = none) ∧
    V1.read_item 42 none = Json.obj [("item_id", .int 42), ("q", .null)] ∧
    V1.read_item 42 (some "foo") =
      Json.obj [("item_id", .int 42), ("q", .str "foo")] := by
  refine ⟨rfl, rfl, ?_, rfl, rfl⟩
  cases q with
  | none => exact ⟨fun _ => rfl, fun _ => rfl⟩
  | some s =>
    refine ⟨fun h => Json.noConfusion (Option.some.inj h), fun h => Option.noConfusion h⟩

/-- C3: POST /items/ echoes a valid Item back unmodified and without
storing anything: the handler returns its argument, processing a create
request leaves the server state unchanged, a body omitting description
parses with description null, and body name=pen is answered with name
pen and description null. -/
theorem create_item_echoes (it : V1.Item) :
    V1.create_item it = it ∧
    (∀ (s : ServerState) (body : Json), (step s (.createItem body)).2 = s) ∧
    (∀ n, V1.Item.parse (Json.obj [("name", .str n)]) =
      some { name := n, description := none }) ∧
    V1.post_items (Json.obj [("name", .str "pen")]) =
      .ok (Json.obj [("name", .str "pen"), ("description", .null)]) := by
  exact ⟨rfl, fun s body => rfl, fun n => rfl, rfl⟩

/-- C4: a POST /items/ body that fails Item validation — missing name,
type-mismatched field, or a non-object body (the image of malformed
JSON) — is rejected with a validation error before the handler runs, in
both variants, and processing a create request never changes the server
state; concretely the empty object, an integer-valued name and a null
body are all rejected. -/
theorem post_items_invalid_rejected (body : Json) :
    (V1.Item.parse body = none → V1.post_items body = .validationError) ∧
    (V2.Item.parse body = none → V2.post_items body = .validationError) ∧
    (∀ fields, (Json.obj fields).getField "name" = none →
      V1.Item.parse (Json.obj fields) = none) ∧
    V1.post_items (Json.obj []) = .validationError ∧
    V1.post_items (Json.obj [("name", .int 3)]) = .validationError ∧
    V1.post_items .null = .validationError ∧
    (∀ s : ServerState, (step s (.createItem body)).2 = s) := by
  refine ⟨?_, ?_, ?_, rfl, rfl, rfl, fun s => rfl⟩
  · intro h; simp [V1.post_items, h]
  · intro h; simp [V2.post_items, h]
  · intro fields h
    unfold V1.Item.parse
    rw [h]

/-- Witness for C4 at the concrete bodies obj [x ↦ 1] and obj []. -/
theorem post_items_invalid_rejected_witness :
    V1.post_items (Json.obj [("x", .int 1)]) = .validationError ∧
    V2.post_items (Json.obj []) = .validationError ∧
    V1.Item.parse (Json.obj [("x", .int 1)]) = none := by
  obtain ⟨h1, _, h3, _⟩ := post_items_invalid_rejected (Json.obj [("x", .int 1)])
  obtain ⟨_, h2, _⟩ := post_items_invalid_rejected (Json.obj [])
  exact ⟨h1 rfl, h2 rfl, h3 [("x", .int 1)] rfl⟩

/-- C5: GET /items/{item_id} is rejected with the framework's coercion
error, the handler never running, exactly when the path segment does not
coerce to an integer, and the handler runs successfully whenever it
does, in both variants. -/
theorem get_items_coercion (seg : String) (q : Option String) :
    (parsePathInt seg = none →
      V1.get_items seg q = .validationError ∧
      V2.get_items seg q = .validationError) ∧
    (∀ i, parsePathInt seg = some i →
      V1.get_items seg q = .ok (V1.read_item i q) ∧
      V2.get_items seg q = .ok (V2.read_item i q)) := by
  constructor
  · intro h
    exact ⟨by simp [V1.get_items, h], by simp [V2.get_items, h]⟩
  · intro i h
    exact ⟨by simp [V1.get_items, h], by simp [V2.get_items, h]⟩

/-- Witness for C5 at the segments "abc" (not an integer) and "42". -/
theorem get_items_coercion_witness :
    V1.get_items "abc" none = .validationError ∧
    V2.get_items "42" (some "foo") = .ok (V2.read_item 42 (some "foo")) := by
  obtain ⟨h1, _⟩ := get_items_coercion "abc" none
  obtain ⟨_, h2⟩ := get_items_coercion "42" (some "foo")
  exact ⟨(h1 rfl).1, (h2 42 rfl).2⟩

/-- C6: the two variants agree on their shared surface — GET /,
GET /items/{item_id} and POST /items/, Item validation and defaulting
included, return the same result for every input — and variant 2 differs
only by additionally registering /healthz and /readyz. -/
theorem variants_equivalent :
    V1.read_root = V2.read_root ∧
    (∀ i q, V1.read_item i q = V2.read_item i q) ∧
    (∀ seg q, V1.get_items seg q = V2.get_items seg q) ∧
    (∀ body, V1.post_items body = V2.post_items body) ∧
    V2.routes = V1.routes ++ ["/healthz", "/readyz"] := by
  refine ⟨rfl, fun i q => rfl, fun seg q => ?_, post_items_agree, rfl⟩
  unfold V1.get_items V2.get_items
  cases parsePathInt seg <;> rfl

/-- C7: every call to GET / returns exactly the constant object
Hello ↦ World in both variants, independent of any request data or prior
calls: in any run, the response at the position of a root request is
that constant whatever precedes or follows it. -/
theorem read_root_constant :
    V1.read_root = Json.obj [("Hello", .str "World")] ∧
    V2.read_root = Json.obj [("Hello", .str "World")] ∧
    (∀ (s : ServerState) (pre post : List Request),
      (run s (pre ++ Request.root :: post)).get? pre.length =
        some (.ok (Json.obj [("Hello", .str "World")]))) := by
  refine ⟨rfl, rfl, fun s pre post => ?_⟩
  rw [run_get, get_append_cons]
  rfl

/-- C8: every call to GET /healthz, a route of variant 2 only, returns
exactly the constant object status ↦ ok, independent of request data and
prior calls. -/
theorem healthz_constant :
    V2.healthz = Json.obj [("status", .str "ok")] ∧
    (∀ (s : ServerState) (pre post : List Request),
      (run s (pre ++ Request.healthz :: post)).get? pre.length =
        some (.ok (Json.obj [("status", .str "ok")]))) ∧
    "/healthz" ∉ V1.routes ∧ "/healthz" ∈ V2.routes := by
  refine ⟨rfl, fun s pre post => ?_, by decide, by decide⟩
  rw [run_get, get_append_cons]
  rfl

/-- C9: no handler reads or writes persisted or shared state: in any
run, the response at each position is a function of the request at that
position alone — so two calls with identical inputs receive identical
responses, and no call changes the result of any other — and processing
any request leaves the server state unchanged. -/
theorem handlers_stateless :
    (∀ (s : ServerState) (rs : List Request) (i : Nat),
      (run s rs).get? i = (rs.get? i).map handle) ∧
    (∀ (s s' : ServerState) (rs rs' : List Request) (i : Nat),
      rs.get? i = rs'.get? i → (run s rs).get? i = (run s' rs').get? i) ∧
    (∀ (s : ServerState) (r : Request), (step s r).2 = s) := by
  refine ⟨run_get, fun s s' rs rs' i h => ?_, fun s r => rfl⟩
  rw [run_get, run_get, h]

/-- Witness for C9 on two concrete runs sharing their first request. -/
theorem handlers_stateless_witness :
    (run ServerState.mk [Request.root]).get? 0 =
      ([Request.root].get? 0).map handle ∧
    (run ServerState.mk [Request.root, Request.healthz]).get? 0 =
      (run ServerState.mk [Request.root]).get? 0 ∧
    (step ServerState.mk Request.healthz).2 = ServerState.mk := by
  obtain ⟨h1, h2, h3⟩ := handlers_stateless
  exact ⟨h1 ServerState.mk [Request.root] 0,
    h2 ServerState.mk ServerState.mk [Request.root, Request.healthz]
      [Request.root] 0 rfl,
    h3 ServerState.mk Request.healthz⟩

/-- C10: a POST /items/ body that supplies description explicitly as
null is accepted and treated exactly as one omitting the field, in both
variants: it parses to the same Item, and the response echoes
description as null; in particular for name pen. -/
theorem explicit_null_description (n : String) :
    V1.Item.parse (Json.obj [("name", .str n), ("description", .null)]) =
      V1.Item.parse (Json.obj [("name", .str n)]) ∧
    V2.Item.parse (Json.obj [("name", .str n), ("description", .null)]) =
      some { name := n, description := none } ∧
    V1.post_items (Json.obj [("name", .str "pen"), ("description", .null)]) =
      .ok (Json.obj [("name", .str "pen"), ("description", .null)]) := by
  exact ⟨rfl, rfl, rfl⟩

end KandilCode
